import Mathlib

/-!
Verification of the GameSched scheduling-policy core (scx_gamesched).

The definitions below are a shallow embedding of the C sources:
- `src/scx_gamesched.h`   : priority levels and capacity constants;
- `src/scx_gamesched.bpf.c`: the scheduling core (classification, isolation
  policy, CPU selection, enqueue, dispatch, init);
- `src/scx_gamesched.c`   : the administrative CLI (add/remove/isolate/pin/status).

BPF hash maps are embedded as functions `Nat → Option _` (lookup
misses return `none`); the BPF array map `isolated_cpus` is embedded as a
total function on its fixed key domain `[0, MAX_CPUS)` together with
`arrayLookup`, which fails (returns `none`) exactly for out-of-range keys,
as `bpf_map_lookup_elem` does on an array map.  Host-runtime facts
(idle-CPU state, the default CPU heuristic result, a task's affinity mask
and kthread flag) are parameters, mirroring §6 of the specification.
-/

namespace GameSched

/-! ## Constants (src/scx_gamesched.h) -/

/-- enum gamesched_priority: highest level, main render threads. -/
def PRIO_GAME_RENDER : Nat := 0

/-- enum gamesched_priority: secondary game threads. -/
def PRIO_GAME_OTHER : Nat := 1

/-- enum gamesched_priority: regular system tasks. -/
def PRIO_NORMAL : Nat := 2

/-- enum gamesched_priority: low priority background. -/
def PRIO_BACKGROUND : Nat := 3

/-- enum gamesched_priority: number of levels. -/
def NR_PRIO_LEVELS : Nat := 4

/-- Maximum number of CPUs (size of the isolated_cpus array map). -/
def MAX_CPUS : Nat := 256

/-- DSQ id base (scx_gamesched.bpf.c, `#define DSQ_PRIO_BASE 0`). -/
def DSQ_PRIO_BASE : Nat := 0

/-! ## Data model -/

/-- The fields of `struct task_struct` the scheduler reads: the pid, the
PF_KTHREAD flag, and the affinity mask `cpus_ptr`. -/
structure Task where
  pid : Nat
  kthread : Bool
  affinity : Nat → Bool

/-- Map `game_threads`: pid → priority level (BPF hash map). -/
def GameThreads := Nat → Option Nat

/-- Map `pinned_threads`: pid → pinned CPU as a signed value (BPF hash map). -/
def PinnedThreads := Nat → Option Int

/-- Contents of the BPF array map `isolated_cpus`: a value for every key in
the fixed domain `[0, MAX_CPUS)`; entries default to 0 (not isolated). -/
def IsoMap := Nat → Nat

/-- `bpf_map_lookup_elem` on an array map of `MAX_CPUS` entries: succeeds
exactly for keys inside the fixed domain. -/
def arrayLookup (m : IsoMap) (key : Nat) : Option Nat :=
  if key < MAX_CPUS then some (m key) else none

/-- The empty `game_threads` map. -/
def gtEmpty : GameThreads := fun _ => none

/-- The empty `pinned_threads` map. -/
def ptEmpty : PinnedThreads := fun _ => none

/-! ## Leaf helpers of scx_gamesched.bpf.c -/

/-- `get_task_priority` (scx_gamesched.bpf.c:83-93): look up the task's pid
in `game_threads`; return the stored level, or PRIO_NORMAL on a miss. -/
def get_task_priority (gt : GameThreads) (p : Task) : Nat :=
  match gt p.pid with
  | some pc => pc
  | none => PRIO_NORMAL

/-- `is_cpu_isolated` (scx_gamesched.bpf.c:98-108): false when isolation is
globally disabled or the CPU id is negative; otherwise an array-map lookup,
true exactly when the lookup succeeds with a non-zero value. -/
def is_cpu_isolated (isolation_enabled : Bool) (iso : IsoMap) (cpu : Int) : Bool :=
  if isolation_enabled = false ∨ cpu < 0 then false
  else
    match arrayLookup iso cpu.toNat with
    | some v => v != 0
    | none => false

/-- `task_allowed_on_isolated` (scx_gamesched.bpf.c:114-128): game threads
of either game level are allowed, kernel threads are allowed, others not. -/
def task_allowed_on_isolated (gt : GameThreads) (p : Task) : Bool :=
  let pc := get_task_priority gt p
  if pc = PRIO_GAME_RENDER ∨ pc = PRIO_GAME_OTHER then true
  else if p.kthread then true
  else false

/-- `get_pinned_cpu` (scx_gamesched.bpf.c:133-143): stored CPU or -1. -/
def get_pinned_cpu (pt : PinnedThreads) (p : Task) : Int :=
  match pt p.pid with
  | some c => c
  | none => -1

/-! ## CPU selection (gamesched_select_cpu, scx_gamesched.bpf.c:150-194) -/

/-- Result of one `gamesched_select_cpu` invocation: the returned CPU, the
eager local dispatch performed as a side effect (target CPU and slice, when
the chosen CPU tested idle), the idle-CPU state after the
`scx_bpf_test_and_clear_cpu_idle` calls, and the value of the
`nr_isolated_violations` counter afterwards. -/
structure SelectResult where
  cpu : Int
  dispatchEvent : Option (Int × Nat)
  idleAfter : Nat → Bool
  redirects : Nat

/-- The `bpf_for(i, 0, nr_cpus)` scan of scx_gamesched.bpf.c:178-185: from
index `i` with `fuel` iterations left, the first index satisfying `f`. -/
def scanFirst (f : Nat → Bool) : Nat → Nat → Option Nat
  | _, 0 => none
  | i, fuel + 1 => if f i then some i else scanFirst f (i + 1) fuel

/-- The predicate of the linear scan: CPU `i` is not isolated and is inside
the task's affinity mask `p->cpus_ptr`. -/
def scanOk (en : Bool) (iso : IsoMap) (p : Task) (i : Nat) : Bool :=
  !is_cpu_isolated en iso (Int.ofNat i) && p.affinity i

/-- `gamesched_select_cpu` (scx_gamesched.bpf.c:150-194).
Parameters supplied by the host runtime: `idle` (the idle-CPU state read
and cleared by `scx_bpf_test_and_clear_cpu_idle`), `nrCpus`
(`scx_bpf_nr_cpu_ids`), and the result `(dflCpu, dflIdle)` of
`scx_bpf_select_cpu_dfl`.  `redirects` is the incoming value of the
`nr_isolated_violations` counter, `slice_ns` the configured slice. -/
def gamesched_select_cpu (en : Bool) (gt : GameThreads) (iso : IsoMap)
    (pt : PinnedThreads) (idle : Nat → Bool) (redirects : Nat) (nrCpus : Nat)
    (dflCpu : Int) (dflIdle : Bool) (slice_ns : Nat) (p : Task) : SelectResult :=
  let pinned := get_pinned_cpu pt p
  if 0 ≤ pinned then
    -- pinned branch (lines 159-166): test-and-clear the pinned CPU's idle
    -- flag; dispatch there when it was idle; return the pinned CPU.
    if idle pinned.toNat then
      { cpu := pinned
        dispatchEvent := some (pinned, slice_ns)
        idleAfter := fun c => if c = pinned.toNat then false else idle c
        redirects := redirects }
    else
      { cpu := pinned, dispatchEvent := none, idleAfter := idle
        redirects := redirects }
  else
    if en && is_cpu_isolated en iso dflCpu && !task_allowed_on_isolated gt p then
      -- isolation redirect (lines 172-187): linear scan, then counter bump.
      match scanFirst (scanOk en iso p) 0 nrCpus with
      | some i =>
        let wasIdle := idle i
        let idle1 : Nat → Bool := fun c => if c = i then false else idle c
        if wasIdle then
          { cpu := Int.ofNat i, dispatchEvent := some (Int.ofNat i, slice_ns)
            idleAfter := idle1, redirects := redirects + 1 }
        else
          { cpu := Int.ofNat i, dispatchEvent := none, idleAfter := idle1
            redirects := redirects + 1 }
      | none =>
        -- no alternate found: keep the default candidate and its idle flag.
        if dflIdle then
          { cpu := dflCpu, dispatchEvent := some (dflCpu, slice_ns)
            idleAfter := idle, redirects := redirects + 1 }
        else
          { cpu := dflCpu, dispatchEvent := none, idleAfter := idle
            redirects := redirects + 1 }
    else
      if dflIdle then
        { cpu := dflCpu, dispatchEvent := some (dflCpu, slice_ns)
          idleAfter := idle, redirects := redirects }
      else
        { cpu := dflCpu, dispatchEvent := none, idleAfter := idle
          redirects := redirects }

/-! ## Enqueue (gamesched_enqueue, scx_gamesched.bpf.c:199-211) -/

/-- The per-level dispatch queues (DSQs) and the two dispatch counters. -/
structure EnqState where
  queues : Nat → List Task
  nr_game_dispatched : Nat
  nr_normal_dispatched : Nat

/-- `gamesched_enqueue`: classify the task, append it to the DSQ with id
`DSQ_PRIO_BASE + level` (`scx_bpf_dispatch` to a numbered DSQ appends at
the tail), and bump one counter according to `level ≤ PRIO_GAME_OTHER`. -/
def gamesched_enqueue (gt : GameThreads) (st : EnqState) (p : Task) : EnqState :=
  let pc := get_task_priority gt p
  let dsq_id := DSQ_PRIO_BASE + pc
  { queues := fun k => if k = dsq_id then st.queues k ++ [p] else st.queues k
    nr_game_dispatched :=
      if pc ≤ PRIO_GAME_OTHER then st.nr_game_dispatched + 1
      else st.nr_game_dispatched
    nr_normal_dispatched :=
      if pc ≤ PRIO_GAME_OTHER then st.nr_normal_dispatched
      else st.nr_normal_dispatched + 1 }

/-! ## Dispatch (gamesched_dispatch, scx_gamesched.bpf.c:216-225) -/

/-- `scx_bpf_consume` on DSQ `id`: when the queue is non-empty, remove its
head, hand it to the calling unit, and report success. -/
def consume (qs : Nat → List Task) (id : Nat) : Option (Task × (Nat → List Task)) :=
  match qs id with
  | [] => none
  | t :: rest => some (t, fun k => if k = id then rest else qs k)

/-- The `bpf_for(pc, 0, NR_PRIO_LEVELS)` loop of `gamesched_dispatch`:
try `consume` on levels `i, i+1, ...` with `fuel` iterations left, stopping
at the first success. -/
def dispatchLoop (qs : Nat → List Task) : Nat → Nat → Option (Task × (Nat → List Task))
  | _, 0 => none
  | i, fuel + 1 =>
    match consume qs i with
    | some r => some r
    | none => dispatchLoop qs (i + 1) fuel

/-- `gamesched_dispatch`: consume from the DSQs in ascending level order,
returning the dispatched task and the updated queues, or `none` when every
level is empty. -/
def gamesched_dispatch (qs : Nat → List Task) : Option (Task × (Nat → List Task)) :=
  dispatchLoop qs DSQ_PRIO_BASE NR_PRIO_LEVELS

/-! ## Init (gamesched_init, scx_gamesched.bpf.c:230-243) -/

/-- The `bpf_for(i, 0, NR_PRIO_LEVELS)` loop of `gamesched_init`: create
DSQ `i, i+1, ...` with `fuel` iterations left, where `create i` is the
return value of `scx_bpf_create_dsq(DSQ_PRIO_BASE + i, -1)`.  Returns the
final return value together with the list of DSQ ids whose creation was
attempted, in order. -/
def initLoop (create : Nat → Int) : Nat → Nat → Int × List Nat
  | _, 0 => (0, [])
  | i, fuel + 1 =>
    if create i ≠ 0 then (create i, [i])
    else
      let r := initLoop create (i + 1) fuel
      (r.1, i :: r.2)

/-- `gamesched_init`: create the NR_PRIO_LEVELS DSQs in order, propagating
the first failure; `.1` is the returned status, `.2` the attempted ids. -/
def gamesched_init (create : Nat → Int) : Int × List Nat :=
  initLoop create DSQ_PRIO_BASE NR_PRIO_LEVELS

/-! ## Administrative CLI (scx_gamesched.c) -/

/-- `cmd_add` (scx_gamesched.c:163-189), restricted to its effect on the
`game_threads` table: map the label "render" to PRIO_GAME_RENDER and
"game" to PRIO_GAME_OTHER and upsert the pid; any other label is rejected
with return value -1 before any map access, leaving the table unchanged.
`.1` is the return value, `.2` the resulting table. -/
def cmd_add (gt : GameThreads) (pid : Nat) (label : String) : Int × GameThreads :=
  if label = "render" then
    (0, fun k => if k = pid then some PRIO_GAME_RENDER else gt k)
  else if label = "game" then
    (0, fun k => if k = pid then some PRIO_GAME_OTHER else gt k)
  else
    (-1, gt)

/-- `cmd_remove` (scx_gamesched.c:194-207), restricted to its effect on the
`game_threads` table: delete the pid's entry (a no-op when absent). -/
def cmd_remove (gt : GameThreads) (pid : Nat) : GameThreads :=
  fun k => if k = pid then none else gt k

/-- The administrative events that mutate the `game_threads` table. -/
inductive AdminEvent where
  | add (pid : Nat) (label : String)
  | remove (pid : Nat)

/-- Apply one administrative event to the `game_threads` table. -/
def applyAdmin (gt : GameThreads) : AdminEvent → GameThreads
  | .add pid label => (cmd_add gt pid label).2
  | .remove pid => cmd_remove gt pid

/-- The `game_threads` table after a sequence of administrative events,
starting from the empty table. -/
def runAdmin (evs : List AdminEvent) : GameThreads :=
  evs.foldl applyAdmin gtEmpty

/-- Modelled from the spec: the step one admin event makes on "the class
most recently registered for pid `t` and still live" — an accepted label
overwrites, an unaccepted label registers nothing, a removal unregisters.
Written from the specification's words, to compare the code's classifier
against them. -/
def spec_regStep (t : Nat) (acc : Option Nat) : AdminEvent → Option Nat
  | .add pid label =>
    if pid = t then
      if label = "render" then some PRIO_GAME_RENDER
      else if label = "game" then some PRIO_GAME_OTHER
      else acc
    else acc
  | .remove pid => if pid = t then none else acc

/-- Modelled from the spec ("`classify(t)` returns the last priority
registered for t, or NORMAL if never registered or after unregistration"):
the class most recently registered for pid `t` by the event sequence and
still live. -/
def spec_lastRegistered (t : Nat) (evs : List AdminEvent) : Option Nat :=
  evs.foldl (spec_regStep t) none

/-! ## Status command (cmd_status, scx_gamesched.c:276-322) -/

/-- The priority string printed by `cmd_status` for a stored level. -/
def prioString (pc : Nat) : String :=
  if pc = PRIO_GAME_RENDER then "render"
  else if pc = PRIO_GAME_OTHER then "game"
  else "normal"

/-- One "PID %u: priority=%s (pinned to CPU %d)" line of `cmd_status`: the
pid, its priority string, and the pinned CPU — shown only when the
`pinned_threads` lookup succeeds with a value ≥ 0. -/
def statusThreadLine (pt : PinnedThreads) (e : Nat × Nat) : Nat × String × Option Int :=
  (e.1, prioString e.2,
    match pt e.1 with
    | some c => if 0 ≤ c then some c else none
    | none => none)

/-- What `cmd_status` prints: one line per `game_threads` entry, and the
list of isolated CPU ids it enumerates.  It prints no counters. -/
structure StatusReport where
  threads : List (Nat × String × Option Int)
  isolated : List Nat

/-- `cmd_status` (scx_gamesched.c:276-322).  `entries` is the contents of
the `game_threads` map as enumerated by `bpf_map_get_next_key`.  The
isolated-CPU loop runs over `i < MAX_CPUS && i < 64` and lists the ids
whose array-map entry is non-zero; the counters live in the scheduler
process's memory and are not read by this command. -/
def cmd_status (entries : List (Nat × Nat)) (pt : PinnedThreads) (iso : IsoMap) :
    StatusReport :=
  { threads := entries.map (statusThreadLine pt)
    isolated :=
      (List.range (min MAX_CPUS 64)).filter fun i =>
        match arrayLookup iso i with
        | some v => v != 0
        | none => false }

/-! ## Whole-system traces (admin interface + enqueue + dispatch) -/

/-- Events of a system run: administrative mutations of the priority table
interleaved with scheduler enqueue and dispatch invocations. -/
inductive SysEvent where
  | adminAdd (pid : Nat) (label : String)
  | adminRemove (pid : Nat)
  | enq (p : Task)
  | disp

/-- The reachable shared state: the `game_threads` table, the DSQs and the
dispatch counters. -/
structure SysState where
  gt : GameThreads
  enqSt : EnqState

/-- The initial state: empty table, empty DSQs, zero counters. -/
def sysInit : SysState :=
  { gt := gtEmpty
    enqSt := { queues := fun _ => [], nr_game_dispatched := 0, nr_normal_dispatched := 0 } }

/-- One step of the system: administrative events go through `cmd_add` /
`cmd_remove`; `enq` runs `gamesched_enqueue` with the current table;
`disp` runs `gamesched_dispatch`, keeping the state when every DSQ is
empty. -/
def sysStep (st : SysState) : SysEvent → SysState
  | .adminAdd pid label => { st with gt := (cmd_add st.gt pid label).2 }
  | .adminRemove pid => { st with gt := cmd_remove st.gt pid }
  | .enq p => { st with enqSt := gamesched_enqueue st.gt st.enqSt p }
  | .disp =>
    match gamesched_dispatch st.enqSt.queues with
    | some r => { st with enqSt := { st.enqSt with queues := r.2 } }
    | none => st

/-- The state reached from `sysInit` by a sequence of system events. -/
def sysRun (evs : List SysEvent) : SysState :=
  evs.foldl sysStep sysInit

/-! ## Helper lemmas -/

lemma applyAdmin_lookup (gt : GameThreads) (e : AdminEvent) (t : Nat) :
    applyAdmin gt e t = spec_regStep t (gt t) e := by
  cases e with
  | add pid label =>
    unfold applyAdmin cmd_add spec_regStep
    by_cases h1 : label = "render" <;> by_cases h2 : label = "game" <;>
      by_cases h3 : pid = t <;> simp [h1, h2, h3, eq_comm]
  | remove pid =>
    unfold applyAdmin cmd_remove spec_regStep
    by_cases h : pid = t
    · simp [h]
    · have h' : ¬ t = pid := fun hh => h hh.symm
      simp [h, h']

lemma foldAdmin_lookup (t : Nat) (evs : List AdminEvent) (gt : GameThreads) :
    (evs.foldl applyAdmin gt) t = evs.foldl (spec_regStep t) (gt t) := by
  induction evs generalizing gt with
  | nil => rfl
  | cons e rest ih => simp only [List.foldl_cons]; rw [ih, applyAdmin_lookup]

lemma initLoop_all_ok (create : Nat → Int) (fuel : Nat) :
    ∀ i, (∀ k, i ≤ k → k < i + fuel → create k = 0) →
      initLoop create i fuel = (0, List.range' i fuel) := by
  induction fuel with
  | zero => intro i _; rfl
  | succ n ih =>
    intro i h
    have hi : create i = 0 := h i le_rfl (by omega)
    unfold initLoop
    simp only [hi, ne_eq, not_true_eq_false, if_false]
    rw [ih (i + 1) (fun k h1 h2 => h k (by omega) (by omega)), List.range'_succ]

lemma initLoop_ok_iff (create : Nat → Int) (fuel : Nat) :
    ∀ i, ((initLoop create i fuel).1 = 0 ↔ ∀ k, i ≤ k → k < i + fuel → create k = 0) := by
  induction fuel with
  | zero =>
    intro i
    constructor
    · intro _ k h1 h2; omega
    · intro _; rfl
  | succ n ih =>
    intro i
    by_cases hi : create i = 0
    · unfold initLoop
      simp only [hi, ne_eq, not_true_eq_false, if_false]
      rw [ih (i + 1)]
      constructor
      · intro h k hk1 hk2
        by_cases hk : k = i
        · subst hk; exact hi
        · exact h k (by omega) (by omega)
      · intro h k hk1 hk2
        exact h k (by omega) (by omega)
    · unfold initLoop
      rw [if_pos hi]
      exact ⟨fun hc => absurd hc hi, fun h => absurd (h i le_rfl (by omega)) hi⟩

lemma initLoop_first_fail (create : Nat → Int) (fuel : Nat) :
    ∀ i j, i ≤ j → j < i + fuel → create j ≠ 0 →
      (∀ k, i ≤ k → k < j → create k = 0) →
      initLoop create i fuel = (create j, List.range' i (j - i + 1)) := by
  induction fuel with
  | zero => intro i j h1 h2 _ _; omega
  | succ n ih =>
    intro i j hij hj hfail hok
    by_cases hi : i = j
    · subst hi
      unfold initLoop
      simp [hfail, List.range'_one]
    · have hci : create i = 0 := hok i le_rfl (by omega)
      unfold initLoop
      simp only [hci, ne_eq, not_true_eq_false, if_false]
      rw [ih (i + 1) j (by omega) (by omega) hfail (fun k h1 h2 => hok k (by omega) h2)]
      have he : j - i + 1 = (j - (i + 1) + 1) + 1 := by omega
      rw [he]
      conv_rhs => rw [List.range'_succ]

/-! ## Claims -/

/-- C5: `is_cpu_isolated u` returns false whenever the global
isolation-enabled flag is false, or `u` is negative, or `u` lies outside
the execution-unit domain `[0, MAX_CPUS)`; for an enabled flag and an
in-domain unit it returns whether the stored `isolated_cpus` entry is
non-zero (entries default to 0, i.e. not isolated). -/
theorem is_cpu_isolated_spec (en : Bool) (iso : IsoMap) (cpu : Int) :
    (en = false → is_cpu_isolated en iso cpu = false) ∧
    (cpu < 0 → is_cpu_isolated en iso cpu = false) ∧
    ((MAX_CPUS : Int) ≤ cpu → is_cpu_isolated en iso cpu = false) ∧
    (en = true → 0 ≤ cpu → cpu < (MAX_CPUS : Int) →
      is_cpu_isolated en iso cpu = (iso cpu.toNat != 0)) := by
  unfold is_cpu_isolated arrayLookup
  refine ⟨fun h => by simp [h], fun h => by simp [h], fun h => ?_, fun h1 h2 h3 => ?_⟩
  · have hn : ¬ cpu < 0 := by
      have : (0 : Int) ≤ (MAX_CPUS : Int) := by unfold MAX_CPUS; omega
      omega
    have hk : ¬ cpu.toNat < MAX_CPUS := by
      unfold MAX_CPUS at h ⊢; omega
    by_cases he : en = false
    · simp [he]
    · simp [he, hn, hk]
  · have hn : ¬ cpu < 0 := by omega
    have hk : cpu.toNat < MAX_CPUS := by
      unfold MAX_CPUS at h3 ⊢; omega
    simp [h1, hn, hk]

/-- Witness for C5 at concrete inputs: unit 300 is out of domain and
reported not isolated even though enabled; unit 2 reports its stored
entry. -/
theorem is_cpu_isolated_spec_witness :
    is_cpu_isolated true (fun i => if i = 2 then 1 else 0) 300 = false ∧
    is_cpu_isolated true (fun i => if i = 2 then 1 else 0) 2 = ((1 : Nat) != 0) := by
  constructor
  · exact (is_cpu_isolated_spec true (fun i => if i = 2 then 1 else 0) 300).2.2.1
      (by unfold MAX_CPUS; omega)
  · have h := (is_cpu_isolated_spec true (fun i => if i = 2 then 1 else 0) 2).2.2.2
      rfl (by omega) (by unfold MAX_CPUS; omega)
    simpa using h

/-- C7: a registration whose priority label is neither "render" nor "game"
is rejected with return value -1 and the priority table is returned
unchanged — no mutation happens on the error path. -/
theorem cmd_add_invalid_label (gt : GameThreads) (pid : Nat) (label : String)
    (h1 : label ≠ "render") (h2 : label ≠ "game") :
    (cmd_add gt pid label).1 = -1 ∧ (cmd_add gt pid label).2 = gt := by
  unfold cmd_add
  simp [h1, h2]

/-- Witness for C7: registering pid 7 with the label "turbo" fails and
leaves the empty table empty. -/
theorem cmd_add_invalid_label_witness :
    (cmd_add gtEmpty 7 "turbo").1 = -1 ∧ (cmd_add gtEmpty 7 "turbo").2 = gtEmpty :=
  cmd_add_invalid_label gtEmpty 7 "turbo" (by decide) (by decide)

/-- C2: for every admin-event history and every task, the classifier
`get_task_priority` returns the class most recently registered for the
task's pid, and PRIO_NORMAL when the pid was never registered or was
unregistered since; the lookup is a pure function with no error case. -/
theorem classify_last_registered (evs : List AdminEvent) (p : Task) :
    get_task_priority (runAdmin evs) p =
      (spec_lastRegistered p.pid evs).getD PRIO_NORMAL := by
  unfold get_task_priority runAdmin spec_lastRegistered
  rw [foldAdmin_lookup]
  have hg : gtEmpty p.pid = none := rfl
  rw [hg]
  cases evs.foldl (spec_regStep p.pid) none with
  | none => rfl
  | some pc => rfl

/-- C6: `gamesched_enqueue` classifies the task, appends it to the tail of
the dispatch queue of exactly its class (leaving every other queue
untouched), and increments exactly one counter — the game-dispatch counter
when the class is RENDER or GAME_OTHER, the normal-dispatch counter
otherwise — by exactly 1 per call. -/
theorem gamesched_enqueue_spec (gt : GameThreads) (st : EnqState) (p : Task) :
    (gamesched_enqueue gt st p).queues (DSQ_PRIO_BASE + get_task_priority gt p) =
        st.queues (DSQ_PRIO_BASE + get_task_priority gt p) ++ [p] ∧
    (∀ j, j ≠ DSQ_PRIO_BASE + get_task_priority gt p →
        (gamesched_enqueue gt st p).queues j = st.queues j) ∧
    ((get_task_priority gt p = PRIO_GAME_RENDER ∨
        get_task_priority gt p = PRIO_GAME_OTHER) →
      (gamesched_enqueue gt st p).nr_game_dispatched = st.nr_game_dispatched + 1 ∧
      (gamesched_enqueue gt st p).nr_normal_dispatched = st.nr_normal_dispatched) ∧
    (get_task_priority gt p ≠ PRIO_GAME_RENDER →
      get_task_priority gt p ≠ PRIO_GAME_OTHER →
      (gamesched_enqueue gt st p).nr_game_dispatched = st.nr_game_dispatched ∧
      (gamesched_enqueue gt st p).nr_normal_dispatched = st.nr_normal_dispatched + 1) := by
  unfold gamesched_enqueue
  refine ⟨by simp, fun j hj => by simp [hj], fun h => ?_, fun h1 h2 => ?_⟩
  · have hle : get_task_priority gt p ≤ PRIO_GAME_OTHER := by
      unfold PRIO_GAME_RENDER PRIO_GAME_OTHER at *
      omega
    simp [hle]
  · have hle : ¬ get_task_priority gt p ≤ PRIO_GAME_OTHER := by
      unfold PRIO_GAME_RENDER PRIO_GAME_OTHER at *
      omega
    simp [hle]

/-- A table registering pid 1 as a render thread, for concrete runs. -/
def gtRender1 : GameThreads := fun k => if k = 1 then some PRIO_GAME_RENDER else none

/-- A concrete task with pid 1, not a kthread, full affinity. -/
def task1 : Task := { pid := 1, kthread := false, affinity := fun _ => true }

/-- Empty queues and zero counters, for concrete runs. -/
def enq0 : EnqState :=
  { queues := fun _ => [], nr_game_dispatched := 0, nr_normal_dispatched := 0 }

/-- Witness for C6: enqueueing the registered render task from the empty
state puts it in queue 0, leaves queue 3 untouched, and bumps the game
counter to 1. -/
theorem gamesched_enqueue_spec_witness :
    (gamesched_enqueue gtRender1 enq0 task1).queues 0 = [task1] ∧
    (gamesched_enqueue gtRender1 enq0 task1).queues 3 = enq0.queues 3 ∧
    (gamesched_enqueue gtRender1 enq0 task1).nr_game_dispatched =
      enq0.nr_game_dispatched + 1 := by
  have h := gamesched_enqueue_spec gtRender1 enq0 task1
  have hpc : get_task_priority gtRender1 task1 = PRIO_GAME_RENDER := rfl
  refine ⟨?_, ?_, ?_⟩
  · have h1 := h.1
    rw [hpc] at h1
    simpa [enq0, DSQ_PRIO_BASE, PRIO_GAME_RENDER] using h1
  · exact h.2.1 3 (by rw [hpc]; decide)
  · exact (h.2.2.1 (Or.inl hpc)).1

/-- C8: `gamesched_init` attempts to create the four priority DSQs in
ascending order, each at most once; it returns 0 (success, scheduler
starts) exactly when all four creations succeed, and on the first failing
creation it stops and propagates that creation's return value without
retrying (the attempted ids are `0, ..., j` for the first failing id `j`). -/
theorem gamesched_init_spec (create : Nat → Int) :
    ((gamesched_init create).1 = 0 ↔ ∀ i, i < NR_PRIO_LEVELS → create i = 0) ∧
    ((∀ i, i < NR_PRIO_LEVELS → create i = 0) →
      gamesched_init create = (0, [0, 1, 2, 3])) ∧
    (∀ j, j < NR_PRIO_LEVELS → create j ≠ 0 → (∀ i, i < j → create i = 0) →
      gamesched_init create = (create j, List.range' 0 (j + 1))) := by
  refine ⟨?_, ?_, ?_⟩
  · unfold gamesched_init
    rw [initLoop_ok_iff]
    constructor
    · intro h i hi
      refine h i (Nat.zero_le i) ?_
      unfold NR_PRIO_LEVELS DSQ_PRIO_BASE at *
      omega
    · intro h k _ hk
      refine h k ?_
      unfold NR_PRIO_LEVELS DSQ_PRIO_BASE at *
      omega
  · intro h
    unfold gamesched_init
    rw [initLoop_all_ok create NR_PRIO_LEVELS DSQ_PRIO_BASE]
    · rfl
    · intro k _ hk
      refine h k ?_
      unfold NR_PRIO_LEVELS DSQ_PRIO_BASE at *
      omega
  · intro j hj hfail hok
    unfold gamesched_init
    rw [initLoop_first_fail create NR_PRIO_LEVELS DSQ_PRIO_BASE j
      (Nat.zero_le j) (by unfold NR_PRIO_LEVELS DSQ_PRIO_BASE at *; omega) hfail
      (fun k _ hk => hok k hk)]
    have : j - DSQ_PRIO_BASE + 1 = j + 1 := by unfold DSQ_PRIO_BASE; omega
    rw [this]
    rfl

/-- Witness for C8: with creation failing at id 2 with -22, init attempts
ids 0, 1, 2 in order and returns -22. -/
theorem gamesched_init_spec_witness :
    gamesched_init (fun i => if i = 2 then (-22 : Int) else 0) = (-22, [0, 1, 2]) := by
  have h := (gamesched_init_spec (fun i => if i = 2 then (-22 : Int) else 0)).2.2 2
    (by decide) (by decide) (by decide)
  simpa using h

lemma gamesched_dispatch_eq (qs : Nat → List Task) :
    gamesched_dispatch qs =
      match consume qs 0 with
      | some r => some r
      | none =>
        match consume qs 1 with
        | some r => some r
        | none =>
          match consume qs 2 with
          | some r => some r
          | none =>
            match consume qs 3 with
            | some r => some r
            | none => none := rfl

/-- C1: whenever at least one of the four dispatch queues is non-empty, a
dispatch call removes and returns the head of the lowest-numbered
non-empty level — never a task of a higher-numbered level while a lower
one is non-empty — leaving the other queues untouched; when all four are
empty nothing is dispatched and the queues are unchanged (the unit stays
idle). -/
theorem gamesched_dispatch_spec (qs : Nat → List Task) :
    ((∀ i, i < NR_PRIO_LEVELS → qs i = []) → gamesched_dispatch qs = none) ∧
    (∀ i t rest, i < NR_PRIO_LEVELS → (∀ j, j < i → qs j = []) →
      qs i = t :: rest →
      ∃ qs2, gamesched_dispatch qs = some (t, qs2) ∧ qs2 i = rest ∧
        ∀ k, k ≠ i → qs2 k = qs k) := by
  constructor
  · intro h
    have h0 := h 0 (by decide)
    have h1 := h 1 (by decide)
    have h2 := h 2 (by decide)
    have h3 := h 3 (by decide)
    rw [gamesched_dispatch_eq]
    simp [consume, h0, h1, h2, h3]
  · intro i t rest hi hlow hqi
    have hi4 : i < 4 := hi
    interval_cases i
    · refine ⟨fun k => if k = 0 then rest else qs k, ?_, by simp, fun k hk => by simp [hk]⟩
      rw [gamesched_dispatch_eq]
      simp [consume, hqi]
    · have h0 := hlow 0 (by omega)
      refine ⟨fun k => if k = 1 then rest else qs k, ?_, by simp, fun k hk => by simp [hk]⟩
      rw [gamesched_dispatch_eq]
      simp [consume, h0, hqi]
    · have h0 := hlow 0 (by omega)
      have h1 := hlow 1 (by omega)
      refine ⟨fun k => if k = 2 then rest else qs k, ?_, by simp, fun k hk => by simp [hk]⟩
      rw [gamesched_dispatch_eq]
      simp [consume, h0, h1, hqi]
    · have h0 := hlow 0 (by omega)
      have h1 := hlow 1 (by omega)
      have h2 := hlow 2 (by omega)
      refine ⟨fun k => if k = 3 then rest else qs k, ?_, by simp, fun k hk => by simp [hk]⟩
      rw [gamesched_dispatch_eq]
      simp [consume, h0, h1, h2, hqi]

/-- Queues with one task waiting at level 1 and all other levels empty. -/
def qsEx : Nat → List Task := fun k => if k = 1 then [task1] else []

/-- Witness for C1: on `qsEx` (levels 0, 2, 3 empty, level 1 holds
`task1`), dispatch hands out `task1`. -/
theorem gamesched_dispatch_spec_witness :
    Option.map Prod.fst (gamesched_dispatch qsEx) = some task1 := by
  obtain ⟨qs2, hq, -, -⟩ := (gamesched_dispatch_spec qsEx).2 1 task1 [] (by decide)
    (by intro j hj; interval_cases j; rfl) rfl
  rw [hq]
  rfl

/-- C3: a task with a non-negative pin-table entry `u` is always selected
onto `u` — for every isolation flag, isolation set and priority table —
with an eager dispatch to `u` (carrying the configured slice) exactly when
`u` is idle; the isolation scan is skipped, observable as the redirect
counter staying unchanged. -/
theorem select_cpu_pinned (en : Bool) (gt : GameThreads) (iso : IsoMap)
    (pt : PinnedThreads) (idle : Nat → Bool) (redirects nrCpus : Nat)
    (dflCpu : Int) (dflIdle : Bool) (slice_ns : Nat) (p : Task) (u : Int)
    (hu : get_pinned_cpu pt p = u) (hpos : 0 ≤ u) :
    (gamesched_select_cpu en gt iso pt idle redirects nrCpus dflCpu dflIdle
        slice_ns p).cpu = u ∧
    (gamesched_select_cpu en gt iso pt idle redirects nrCpus dflCpu dflIdle
        slice_ns p).dispatchEvent =
      (if idle u.toNat then some (u, slice_ns) else none) ∧
    (gamesched_select_cpu en gt iso pt idle redirects nrCpus dflCpu dflIdle
        slice_ns p).redirects = redirects := by
  simp only [gamesched_select_cpu, hu]
  rw [if_pos hpos]
  by_cases hidle : idle u.toNat
  · simp [hidle]
  · simp [hidle]

/-- A pin table sending pid 1 to CPU 5. -/
def ptPin1to5 : PinnedThreads := fun k => if k = 1 then some 5 else none

/-- An isolation set containing exactly CPU 5. -/
def isoOnly5 : IsoMap := fun i => if i = 5 then 1 else 0

/-- Witness for C3: pid 1 (unregistered, hence NORMAL) pinned to CPU 5
while CPU 5 is isolated and isolation is enabled: selection still returns
5, dispatches there eagerly (all CPUs idle), and leaves the redirect
counter at 0. -/
theorem select_cpu_pinned_witness :
    (gamesched_select_cpu true gtEmpty isoOnly5 ptPin1to5 (fun _ => true) 0 8 2
        true 5000 task1).cpu = 5 ∧
    (gamesched_select_cpu true gtEmpty isoOnly5 ptPin1to5 (fun _ => true) 0 8 2
        true 5000 task1).dispatchEvent = some (5, 5000) ∧
    (gamesched_select_cpu true gtEmpty isoOnly5 ptPin1to5 (fun _ => true) 0 8 2
        true 5000 task1).redirects = 0 := by
  have h := select_cpu_pinned true gtEmpty isoOnly5 ptPin1to5 (fun _ => true) 0 8 2
    true 5000 task1 5 rfl (by decide)
  refine ⟨h.1, ?_, h.2.2⟩
  rw [h.2.1]
  rfl

lemma scanFirst_some (f : Nat → Bool) (fuel : Nat) :
    ∀ i j, scanFirst f i fuel = some j →
      i ≤ j ∧ j < i + fuel ∧ f j = true ∧ ∀ k, i ≤ k → k < j → f k = false := by
  induction fuel with
  | zero => intro i j h; exact absurd h (by simp [scanFirst])
  | succ n ih =>
    intro i j h
    unfold scanFirst at h
    by_cases hf : f i
    · rw [if_pos hf] at h
      obtain rfl : i = j := by injection h
      exact ⟨le_rfl, by omega, hf, fun k h1 h2 => by omega⟩
    · rw [if_neg hf] at h
      obtain ⟨h1, h2, h3, h4⟩ := ih (i + 1) j h
      refine ⟨by omega, by omega, h3, fun k hk1 hk2 => ?_⟩
      by_cases hk : k = i
      · subst hk; simpa using hf
      · exact h4 k (by omega) hk2

lemma scanFirst_none (f : Nat → Bool) (fuel : Nat) :
    ∀ i, (scanFirst f i fuel = none ↔ ∀ k, i ≤ k → k < i + fuel → f k = false) := by
  induction fuel with
  | zero =>
    intro i
    constructor
    · intro _ k h1 h2; omega
    · intro _; rfl
  | succ n ih =>
    intro i
    unfold scanFirst
    by_cases hf : f i
    · rw [if_pos hf]
      constructor
      · intro h; exact absurd h (by simp)
      · intro h
        have := h i le_rfl (by omega)
        rw [hf] at this
        exact absurd this (by simp)
    · rw [if_neg hf]
      rw [ih (i + 1)]
      constructor
      · intro h k hk1 hk2
        by_cases hk : k = i
        · subst hk; simpa using hf
        · exact h k (by omega) (by omega)
      · intro h k hk1 hk2
        exact h k (by omega) (by omega)

lemma is_cpu_isolated_true_en (en : Bool) (iso : IsoMap) (cpu : Int)
    (h : is_cpu_isolated en iso cpu = true) : en = true := by
  cases en
  · rw [is_cpu_isolated] at h
    simp at h
  · rfl

/-- C4: for an unpinned task whose default candidate `dflCpu` is isolated
while the task is not allowed on isolated units, selection scans CPUs
0, 1, ... for the first unit that is not isolated and inside the task's
affinity mask (`scanOk`), freshly queries that unit's idle flag (eagerly
dispatching there exactly when idle); when no such unit exists below
`nrCpus`, it keeps the original isolated candidate; in both outcomes the
redirect counter grows by exactly 1. -/
theorem select_cpu_isolation_redirect (en : Bool) (gt : GameThreads) (iso : IsoMap)
    (pt : PinnedThreads) (idle : Nat → Bool) (redirects nrCpus : Nat)
    (dflCpu : Int) (dflIdle : Bool) (slice_ns : Nat) (p : Task)
    (hpin : get_pinned_cpu pt p < 0)
    (hiso : is_cpu_isolated en iso dflCpu = true)
    (hallow : task_allowed_on_isolated gt p = false) :
    (gamesched_select_cpu en gt iso pt idle redirects nrCpus dflCpu dflIdle
        slice_ns p).redirects = redirects + 1 ∧
    (∀ j, j < nrCpus → scanOk en iso p j = true →
      ∃ i, i < nrCpus ∧ scanOk en iso p i = true ∧
        (∀ k, k < i → scanOk en iso p k = false) ∧
        (gamesched_select_cpu en gt iso pt idle redirects nrCpus dflCpu dflIdle
            slice_ns p).cpu = Int.ofNat i ∧
        (gamesched_select_cpu en gt iso pt idle redirects nrCpus dflCpu dflIdle
            slice_ns p).dispatchEvent =
          (if idle i then some (Int.ofNat i, slice_ns) else none)) ∧
    ((∀ i, i < nrCpus → scanOk en iso p i = false) →
      (gamesched_select_cpu en gt iso pt idle redirects nrCpus dflCpu dflIdle
          slice_ns p).cpu = dflCpu ∧
      (gamesched_select_cpu en gt iso pt idle redirects nrCpus dflCpu dflIdle
          slice_ns p).dispatchEvent =
        (if dflIdle then some (dflCpu, slice_ns) else none)) := by
  have hen : en = true := is_cpu_isolated_true_en en iso dflCpu hiso
  subst hen
  have hnp : ¬ (0 : Int) ≤ get_pinned_cpu pt p := by omega
  simp only [gamesched_select_cpu]
  rw [if_neg hnp, hiso, hallow]
  simp only [Bool.and_self, Bool.not_false, Bool.and_true, Bool.true_and, if_true]
  cases hscan : scanFirst (scanOk true iso p) 0 nrCpus with
  | some i =>
    obtain ⟨-, hlt, hok, hmin⟩ := scanFirst_some (scanOk true iso p) nrCpus 0 i hscan
    refine ⟨?_, fun j hj hjok => ?_, fun hnone => ?_⟩
    · by_cases hidle : idle i <;> simp [hidle]
    · refine ⟨i, by omega, hok, fun k hk => hmin k (Nat.zero_le k) hk, ?_, ?_⟩
      · by_cases hidle : idle i <;> simp [hidle]
      · by_cases hidle : idle i <;> simp [hidle]
    · exact absurd hok (by simp [hnone i (by omega)])
  | none =>
    have hall := (scanFirst_none (scanOk true iso p) nrCpus 0).mp hscan
    refine ⟨?_, fun j hj hjok => ?_, fun _ => ?_⟩
    · by_cases hidle : dflIdle <;> simp [hidle]
    · exact absurd hjok (by simp [hall j (Nat.zero_le j) (by omega)])
    · by_cases hidle : dflIdle <;> simp [hidle]

/-- An unregistered (NORMAL) task with pid 9 and full affinity. -/
def task9 : Task := { pid := 9, kthread := false, affinity := fun _ => true }

/-- An isolation set containing exactly CPU 2. -/
def isoOnly2 : IsoMap := fun i => if i = 2 then 1 else 0

/-- Witness for C4 (spec Scenario B): unregistered task, default candidate
CPU 2 isolated, 4 CPUs, full affinity: selection redirects to CPU 0 and
the counter goes from 0 to 1. -/
theorem select_cpu_isolation_redirect_witness :
    (gamesched_select_cpu true gtEmpty isoOnly2 ptEmpty (fun _ => true) 0 4 2 true
        5000 task9).redirects = 0 + 1 ∧
    (gamesched_select_cpu true gtEmpty isoOnly2 ptEmpty (fun _ => true) 0 4 2 true
        5000 task9).cpu = 0 := by
  have h := select_cpu_isolation_redirect true gtEmpty isoOnly2 ptEmpty
    (fun _ => true) 0 4 2 true 5000 task9 (by decide) (by decide) (by decide)
  refine ⟨h.1, ?_⟩
  obtain ⟨i, -, -, hmin, hcpu, -⟩ := h.2.1 0 (by decide) (by decide)
  have hi0 : i = 0 := by
    by_contra hne
    have h0 := hmin 0 (by omega)
    rw [show scanOk true isoOnly2 task9 0 = true from by decide] at h0
    exact absurd h0 (by simp)
  rw [hi0] at hcpu
  simpa using hcpu

/-- An isolation set containing exactly CPU 64. -/
def iso64 : IsoMap := fun i => if i = 64 then 1 else 0

/-- C9 counterexample: CPU 64 is inside the execution-unit domain and is
isolated (the isolation check reports it so), yet the status command's
report omits it — its isolated-CPU loop stops at id 64 — so the report is
not the complete set of isolated units, contrary to the claim. -/
theorem cmd_status_counterexample :
    is_cpu_isolated true iso64 64 = true ∧
    64 ∉ (cmd_status [] ptEmpty iso64).isolated := by
  constructor
  · decide
  · decide

/-- C9 amended: the status command reports every registered task, with its
priority label and its pin status (a pinned CPU is shown exactly when the
pin-table entry exists and is non-negative), and reports exactly those
isolated units whose identifier is below 64; the three counters are not
part of this command's report (the running scheduler's stats loop prints
them once per second instead). -/
theorem cmd_status_amended (entries : List (Nat × Nat)) (pt : PinnedThreads)
    (iso : IsoMap) :
    ((cmd_status entries pt iso).threads.length = entries.length) ∧
    (∀ pid pc, (pid, pc) ∈ entries →
      ∃ ln, ln ∈ (cmd_status entries pt iso).threads ∧ ln.1 = pid ∧
        ln.2.1 = prioString pc ∧
        (∀ c, pt pid = some c → 0 ≤ c → ln.2.2 = some c) ∧
        (pt pid = none → ln.2.2 = none)) ∧
    (∀ u, u ∈ (cmd_status entries pt iso).isolated ↔ u < 64 ∧ iso u ≠ 0) := by
  refine ⟨by simp [cmd_status], fun pid pc hmem => ?_, fun u => ?_⟩
  · refine ⟨statusThreadLine pt (pid, pc), List.mem_map_of_mem _ hmem, rfl, rfl,
      ?_, ?_⟩
    · intro c hc hcpos
      simp [statusThreadLine, hc, hcpos]
    · intro hc
      simp [statusThreadLine, hc]
  · unfold cmd_status
    simp only [List.mem_filter, List.mem_range]
    constructor
    · rintro ⟨hu, hp⟩
      have hlt : u < MAX_CPUS := by unfold MAX_CPUS at *; omega
      refine ⟨by unfold MAX_CPUS at *; omega, ?_⟩
      unfold arrayLookup at hp
      rw [if_pos hlt] at hp
      simpa using hp
    · rintro ⟨hu64, hne⟩
      have hlt : u < MAX_CPUS := by unfold MAX_CPUS; omega
      refine ⟨by unfold MAX_CPUS; omega, ?_⟩
      unfold arrayLookup
      rw [if_pos hlt]
      simpa using hne

/-- Witness for the amended C9: with pid 1 registered as render and CPU 2
isolated, the report holds one thread line and lists CPU 2. -/
theorem cmd_status_amended_witness :
    2 ∈ (cmd_status [(1, PRIO_GAME_RENDER)] ptPin1to5 isoOnly2).isolated ∧
    (cmd_status [(1, PRIO_GAME_RENDER)] ptPin1to5 isoOnly2).threads.length = 1 := by
  constructor
  · exact ((cmd_status_amended [(1, PRIO_GAME_RENDER)] ptPin1to5 isoOnly2).2.2 2).mpr
      ⟨by omega, by decide⟩
  · exact (cmd_status_amended [(1, PRIO_GAME_RENDER)] ptPin1to5 isoOnly2).1

lemma gamesched_dispatch_keeps_bg (qs : Nat → List Task) (t : Task)
    (qs2 : Nat → List Task) (h : gamesched_dispatch qs = some (t, qs2))
    (h3 : qs 3 = []) : qs2 3 = [] := by
  rw [gamesched_dispatch_eq] at h
  cases hq0 : qs 0 with
  | cons a l =>
    simp only [consume, hq0] at h
    obtain ⟨-, hf⟩ := Prod.mk.injEq .. ▸ (Option.some.injEq .. ▸ h)
    rw [← hf]
    simp [h3]
  | nil =>
    simp only [consume, hq0] at h
    cases hq1 : qs 1 with
    | cons a l =>
      simp only [consume, hq1] at h
      obtain ⟨-, hf⟩ := Prod.mk.injEq .. ▸ (Option.some.injEq .. ▸ h)
      rw [← hf]
      simp [h3]
    | nil =>
      simp only [consume, hq1] at h
      cases hq2 : qs 2 with
      | cons a l =>
        simp only [consume, hq2] at h
        obtain ⟨-, hf⟩ := Prod.mk.injEq .. ▸ (Option.some.injEq .. ▸ h)
        rw [← hf]
        simp [h3]
      | nil =>
        simp only [consume, hq2, h3] at h
        exact absurd h (by simp)

lemma sysStep_inv (st : SysState)
    (h1 : ∀ pid v, st.gt pid = some v → v = PRIO_GAME_RENDER ∨ v = PRIO_GAME_OTHER)
    (h2 : st.enqSt.queues PRIO_BACKGROUND = []) (e : SysEvent) :
    (∀ pid v, (sysStep st e).gt pid = some v →
      v = PRIO_GAME_RENDER ∨ v = PRIO_GAME_OTHER) ∧
    (sysStep st e).enqSt.queues PRIO_BACKGROUND = [] := by
  cases e with
  | adminAdd pid label =>
    refine ⟨fun q v hq => ?_, h2⟩
    have hq2 : (cmd_add st.gt pid label).2 q = some v := hq
    unfold cmd_add at hq2
    by_cases hr : label = "render"
    · rw [if_pos hr] at hq2
      have hq3 : (if q = pid then some PRIO_GAME_RENDER else st.gt q) = some v := hq2
      by_cases hqp : q = pid
      · rw [if_pos hqp] at hq3
        injection hq3 with hv
        exact Or.inl hv.symm
      · rw [if_neg hqp] at hq3
        exact h1 q v hq3
    · rw [if_neg hr] at hq2
      by_cases hg : label = "game"
      · rw [if_pos hg] at hq2
        have hq3 : (if q = pid then some PRIO_GAME_OTHER else st.gt q) = some v := hq2
        by_cases hqp : q = pid
        · rw [if_pos hqp] at hq3
          injection hq3 with hv
          exact Or.inr hv.symm
        · rw [if_neg hqp] at hq3
          exact h1 q v hq3
      · rw [if_neg hg] at hq2
        exact h1 q v hq2
  | adminRemove pid =>
    refine ⟨fun q v hq => ?_, h2⟩
    have hq2 : cmd_remove st.gt pid q = some v := hq
    unfold cmd_remove at hq2
    by_cases hqp : q = pid
    · rw [if_pos hqp] at hq2
      exact absurd hq2 (by simp)
    · rw [if_neg hqp] at hq2
      exact h1 q v hq2
  | enq p =>
    refine ⟨fun q v hq => h1 q v hq, ?_⟩
    have hpc : DSQ_PRIO_BASE + get_task_priority st.gt p ≠ PRIO_BACKGROUND := by
      unfold get_task_priority
      cases hg : st.gt p.pid with
      | none => decide
      | some v => rcases h1 p.pid v hg with h | h <;> rw [h] <;> decide
    show (gamesched_enqueue st.gt st.enqSt p).queues PRIO_BACKGROUND = []
    unfold gamesched_enqueue
    simp only
    rw [if_neg (fun hh => hpc hh.symm)]
    exact h2
  | disp =>
    refine ⟨fun q v hq => ?_, ?_⟩
    · have : (sysStep st SysEvent.disp).gt = st.gt := by
        unfold sysStep
        cases gamesched_dispatch st.enqSt.queues <;> rfl
      rw [this] at hq
      exact h1 q v hq
    · unfold sysStep
      cases hd : gamesched_dispatch st.enqSt.queues with
      | none => exact h2
      | some r =>
        show r.2 PRIO_BACKGROUND = []
        exact gamesched_dispatch_keeps_bg st.enqSt.queues r.1 r.2 (by rw [hd]) h2

lemma sysFold_inv (evs : List SysEvent) :
    ∀ st : SysState,
      (∀ pid v, st.gt pid = some v → v = PRIO_GAME_RENDER ∨ v = PRIO_GAME_OTHER) →
      st.enqSt.queues PRIO_BACKGROUND = [] →
      (∀ pid v, (evs.foldl sysStep st).gt pid = some v →
        v = PRIO_GAME_RENDER ∨ v = PRIO_GAME_OTHER) ∧
      (evs.foldl sysStep st).enqSt.queues PRIO_BACKGROUND = [] := by
  induction evs with
  | nil => intro st h1 h2; exact ⟨h1, h2⟩
  | cons e rest ih =>
    intro st h1 h2
    obtain ⟨h1s, h2s⟩ := sysStep_inv st h1 h2 e
    exact ih (sysStep st e) h1s h2s

/-- C10: in every state reachable through the administrative interface and
the scheduler hooks, every class stored in the priority table is RENDER or
GAME_OTHER; hence the classifier never returns BACKGROUND for any task,
and the BACKGROUND dispatch queue is empty in every reachable state (so
enqueue never appends to it). -/
theorem background_queue_empty (evs : List SysEvent) :
    (∀ pid v, (sysRun evs).gt pid = some v →
      v = PRIO_GAME_RENDER ∨ v = PRIO_GAME_OTHER) ∧
    (∀ p, get_task_priority (sysRun evs).gt p ≠ PRIO_BACKGROUND) ∧
    (sysRun evs).enqSt.queues PRIO_BACKGROUND = [] := by
  obtain ⟨h1, h2⟩ := sysFold_inv evs sysInit (fun pid v hv => by
    exact absurd hv (by simp [sysInit, gtEmpty])) rfl
  refine ⟨h1, fun p => ?_, h2⟩
  unfold get_task_priority
  cases hg : (sysRun evs).gt p.pid with
  | none => decide
  | some v => rcases h1 p.pid v hg with h | h <;> rw [h] <;> decide

/-- Witness for C10: after registering pid 1 as render, enqueueing it and
dispatching once, the stored class is a game class and the BACKGROUND
queue is empty. -/
theorem background_queue_empty_witness :
    (PRIO_GAME_RENDER = PRIO_GAME_RENDER ∨ PRIO_GAME_RENDER = PRIO_GAME_OTHER) ∧
    (sysRun [SysEvent.adminAdd 1 "render", SysEvent.enq task1,
        SysEvent.disp]).enqSt.queues PRIO_BACKGROUND = [] := by
  refine ⟨(background_queue_empty [SysEvent.adminAdd 1 "render", SysEvent.enq task1,
      SysEvent.disp]).1 1 PRIO_GAME_RENDER ?_,
    (background_queue_empty [SysEvent.adminAdd 1 "render", SysEvent.enq task1,
      SysEvent.disp]).2.2⟩
  rfl

end GameSched
